import Mathlib

/-!
Shallow embedding of the core of `stack-kubernetes-remote`: the
containerized-workload packager, the manual-scaler trait modifier, and the
trait reconciler. Each Lean definition mirrors one Go function or type of the
repository; theorems settle the specification claims about them.
-/

namespace StackKubernetesRemote

/-! ## Data model

A `Fragment` models one `KubernetesApplicationResourceTemplate`: a
structured document (`payload` stands for all content other than the fields
the code inspects) together with its discriminant `kind`. `replicas` models
the Deployment's `spec.replicas` field (`none` when absent), and `decodeOk`
records whether `runtime.DefaultUnstructuredConverter.FromUnstructured` into
an `appsv1.Deployment` succeeds on this document. -/

structure Fragment where
  kind : String
  replicas : Option Int
  decodeOk : Bool
  payload : String
  deriving DecidableEq, Repr

/-- Models `workloadv1alpha1.KubernetesApplication`: the metadata fields the
reconciler stamps (`SetName`, `SetNamespace`, `SetOwnerReferences`) and the
ordered `Spec.ResourceTemplates` sequence. -/
structure KubernetesApplication where
  name : String
  namespaceName : String
  ownerRefs : List String
  resourceTemplates : List Fragment
  deriving DecidableEq, Repr

/-- Models `oamv1alpha2.ManualScalerTrait`: the reconciler only reads its
`Spec.ReplicaCount`. -/
structure ManualScalerTrait where
  replicaCount : Int
  deriving DecidableEq, Repr

/-! ## Modifier (`manualScalerModifier`, manualscalertrait.go)

The Go function iterates over `app.Spec.ResourceTemplates`; for each template
whose kind is `"Deployment"` it decodes the template into a Deployment
(returning the decode error if that fails), overwrites `Spec.Replicas` with
the trait's replica count, re-encodes, and writes the result back at the same
index. Templates of other kinds are left alone. There is no early exit after
a match: every `"Deployment"` template is patched. -/

def errCannotDecodeDeployment : String := "cannot convert unstructured to Deployment"

/-- One iteration of the loop body of `manualScalerModifier` on a single
resource template. -/
def scaleTemplate (rc : Int) (f : Fragment) : Except String Fragment :=
  if f.kind = "Deployment" then
    if f.decodeOk then
      Except.ok { f with replicas := some rc }
    else
      Except.error errCannotDecodeDeployment
  else
    Except.ok f

/-- The loop of `manualScalerModifier` over the resource-template list,
index by index, patching in place. -/
def scaleTemplates (rc : Int) : List Fragment → Except String (List Fragment)
  | [] => Except.ok []
  | f :: fs =>
    match scaleTemplate rc f with
    | Except.error e => Except.error e
    | Except.ok f' =>
      match scaleTemplates rc fs with
      | Except.error e => Except.error e
      | Except.ok fs' => Except.ok (f' :: fs')

/-- Models `manualScalerModifier` (manualscalertrait.go): patch every
`"Deployment"` template's replica count in `app`'s resource-template list. -/
def manualScalerModifier (app : KubernetesApplication) (ms : ManualScalerTrait) :
    Except String KubernetesApplication :=
  match scaleTemplates ms.replicaCount app.resourceTemplates with
  | Except.error e => Except.error e
  | Except.ok ts => Except.ok { app with resourceTemplates := ts }

/-! ## Packager input: `oamv1alpha2.ContainerizedWorkload`

Optional Go pointer fields become `Option`; `int32` fields become `Int`;
resource quantities are kept opaque as strings. Field names follow the Go
struct fields, including the source's `MouthPath` field of `VolumeMount`. -/

structure OAMContainerPort where
  name : String
  port : Int
  protocol : Option String
  deriving DecidableEq, Repr

structure OAMEnvVar where
  name : String
  value : String
  deriving DecidableEq, Repr

structure OAMHTTPHeader where
  name : String
  value : String
  deriving DecidableEq, Repr

structure OAMHTTPGet where
  path : String
  port : Int
  httpHeaders : List OAMHTTPHeader
  deriving DecidableEq, Repr

structure OAMExec where
  command : List String
  deriving DecidableEq, Repr

structure OAMTCPSocket where
  port : Int
  deriving DecidableEq, Repr

structure OAMHealthProbe where
  initialDelaySeconds : Option Int
  timeoutSeconds : Option Int
  periodSeconds : Option Int
  successThreshold : Option Int
  failureThreshold : Option Int
  httpGet : Option OAMHTTPGet
  exe : Option OAMExec
  tcpSocket : Option OAMTCPSocket
  deriving DecidableEq, Repr

structure OAMVolumeMount where
  name : String
  mouthPath : String
  accessMode : Option String
  deriving DecidableEq, Repr

structure OAMContainerResources where
  cpuRequired : String
  memoryRequired : String
  volumes : List OAMVolumeMount
  deriving DecidableEq, Repr

structure OAMContainer where
  name : String
  image : String
  command : List String
  arguments : List String
  resources : OAMContainerResources
  ports : List OAMContainerPort
  environment : List OAMEnvVar
  livenessProbe : Option OAMHealthProbe
  readinessProbe : Option OAMHealthProbe
  imagePullSecret : Option String
  deriving DecidableEq, Repr

structure ContainerizedWorkload where
  operatingSystem : Option String
  cpuArchitecture : Option String
  containers : List OAMContainer
  deriving DecidableEq, Repr

/-! ## Packager output: the `appsv1.Deployment` fields the packager writes -/

structure KubeContainerPort where
  name : String
  containerPort : Int
  protocol : String
  deriving DecidableEq, Repr

structure KubeEnvVar where
  name : String
  value : String
  deriving DecidableEq, Repr

structure KubeHTTPHeader where
  name : String
  value : String
  deriving DecidableEq, Repr

structure KubeHTTPGetAction where
  path : String
  port : Int
  httpHeaders : List KubeHTTPHeader
  deriving DecidableEq, Repr

structure KubeExecAction where
  command : List String
  deriving DecidableEq, Repr

structure KubeTCPSocketAction where
  port : Int
  deriving DecidableEq, Repr

/-- `corev1.Probe`: the `int32` timing fields have Go zero value `0`; the
handler fields are pointers, `none` when unset. -/
structure KubeProbe where
  initialDelaySeconds : Int
  timeoutSeconds : Int
  periodSeconds : Int
  successThreshold : Int
  failureThreshold : Int
  httpGet : Option KubeHTTPGetAction
  exe : Option KubeExecAction
  tcpSocket : Option KubeTCPSocketAction
  deriving DecidableEq, Repr

/-- The zero value `corev1.Probe{}`. -/
def KubeProbe.zero : KubeProbe :=
  ⟨0, 0, 0, 0, 0, none, none, none⟩

structure KubeVolumeMount where
  name : String
  mountPath : String
  readOnly : Bool
  deriving DecidableEq, Repr

structure KubeContainer where
  name : String
  image : String
  command : List String
  args : List String
  requestsCPU : String
  requestsMemory : String
  ports : List KubeContainerPort
  env : List KubeEnvVar
  livenessProbe : Option KubeProbe
  readinessProbe : Option KubeProbe
  volumeMounts : List KubeVolumeMount
  deriving DecidableEq, Repr

/-- The fields of the Deployment's pod template spec that the packager
writes. `nodeSelector` is a Go `map[string]string`, whose zero value is the
nil map (`none`); assigning into a nil map is a runtime panic. -/
structure KubePodSpec where
  nodeSelector : Option (List (String × String))
  imagePullSecrets : List String
  containers : List KubeContainer
  deriving DecidableEq, Repr

structure Deployment where
  replicas : Option Int
  template : KubePodSpec
  deriving DecidableEq, Repr

/-- The zero value `appsv1.Deployment{}` restricted to the modelled fields:
`Replicas` is a nil pointer and `NodeSelector` is a nil map. -/
def Deployment.zero : Deployment :=
  ⟨none, ⟨none, [], []⟩⟩

/-! ## Go runtime panics the packager can hit -/

inductive GoPanic where
  /-- `assignment to entry in nil map` -/
  | nilMapAssignment
  /-- `invalid memory address or nil pointer dereference` -/
  | nilPointerDeref
  deriving DecidableEq, Repr

/-- Go map assignment `m[k] = v`: panics when `m` is the nil map, otherwise
overwrites the entry for `k` (or appends it). -/
def mapAssign (m : Option (List (String × String))) (k v : String) :
    Except GoPanic (Option (List (String × String))) :=
  match m with
  | none => Except.error GoPanic.nilMapAssignment
  | some l =>
    if l.any (fun kv => kv.1 = k) then
      Except.ok (some (l.map (fun kv => if kv.1 = k then (k, v) else kv)))
    else
      Except.ok (some (l ++ [(k, v)]))

/-! ## Packager (`containerizedWorkloadPackager`, containerizedworkload.go) -/

def errNotContainerizedWorkload : String := "object is not a containerized workload"

/-- The `runtime.Object` argument of the packager: either a
`ContainerizedWorkload` or some other object (the failed type assertion). -/
inductive WorkloadObject where
  | containerized (cw : ContainerizedWorkload)
  | other
  deriving DecidableEq, Repr

/-- The port loop: `Protocol: corev1.Protocol(*p.Protocol)` dereferences the
optional `Protocol` pointer unconditionally, so an absent protocol is a nil
pointer dereference. -/
def packPorts : List OAMContainerPort → Except GoPanic (List KubeContainerPort)
  | [] => Except.ok []
  | p :: ps =>
    match p.protocol with
    | none => Except.error GoPanic.nilPointerDeref
    | some proto =>
      match packPorts ps with
      | Except.error e => Except.error e
      | Except.ok ks => Except.ok (KubeContainerPort.mk p.name p.port proto :: ks)

/-- The probe translation: start from `corev1.Probe{}` and copy each timing
field only when the source pointer is non-nil (absent fields keep the Go zero
value `0`); every handler type present in the source is set on the output. -/
def packProbe (pr : OAMHealthProbe) : KubeProbe :=
  { initialDelaySeconds := pr.initialDelaySeconds.getD 0
    timeoutSeconds := pr.timeoutSeconds.getD 0
    periodSeconds := pr.periodSeconds.getD 0
    successThreshold := pr.successThreshold.getD 0
    failureThreshold := pr.failureThreshold.getD 0
    httpGet := pr.httpGet.map (fun g =>
      KubeHTTPGetAction.mk g.path g.port
        (g.httpHeaders.map (fun h => KubeHTTPHeader.mk h.name h.value)))
    exe := pr.exe.map (fun e => KubeExecAction.mk e.command)
    tcpSocket := pr.tcpSocket.map (fun t => KubeTCPSocketAction.mk t.port) }

/-- The volume-mount loop: read-only iff the access mode is present and equals
`"RO"` (`oamv1alpha2.VolumeAccessModeRO`). -/
def packVolumeMount (v : OAMVolumeMount) : KubeVolumeMount :=
  KubeVolumeMount.mk v.name v.mouthPath (v.accessMode == some "RO")

/-- The per-container body of the packager loop (everything except the
pod-level `ImagePullSecrets` append). -/
def packContainer (c : OAMContainer) : Except GoPanic KubeContainer :=
  match packPorts c.ports with
  | Except.error e => Except.error e
  | Except.ok kports =>
    Except.ok
      { name := c.name
        image := c.image
        command := c.command
        args := c.arguments
        requestsCPU := c.resources.cpuRequired
        requestsMemory := c.resources.memoryRequired
        ports := kports
        env := c.environment.map (fun e => KubeEnvVar.mk e.name e.value)
        livenessProbe := c.livenessProbe.map packProbe
        readinessProbe := c.readinessProbe.map packProbe
        volumeMounts := c.resources.volumes.map packVolumeMount }

/-- The container loop: per container, first hoist an optional pull-secret
reference to the pod-level list, then build the container and append it. -/
def packContainers (ps : KubePodSpec) : List OAMContainer → Except GoPanic KubePodSpec
  | [] => Except.ok ps
  | c :: cs =>
    let ps1 :=
      match c.imagePullSecret with
      | none => ps
      | some s => { ps with imagePullSecrets := ps.imagePullSecrets ++ [s] }
    match packContainer c with
    | Except.error e => Except.error e
    | Except.ok kc =>
      packContainers { ps1 with containers := ps1.containers ++ [kc] } cs

/-- The Deployment value `d` that `containerizedWorkloadPackager` builds from
a `ContainerizedWorkload`, starting from `appsv1.Deployment{}` (whose
`NodeSelector` is the nil map): OS and CPU-architecture selectors are
assigned into `NodeSelector`, then the containers are translated. -/
def containerizedWorkloadDeployment (cw : ContainerizedWorkload) :
    Except GoPanic Deployment :=
  let ns0 := Deployment.zero.template.nodeSelector
  match (match cw.operatingSystem with
         | none => Except.ok ns0
         | some os => mapAssign ns0 "beta.kubernetes.io/os" os) with
  | Except.error e => Except.error e
  | Except.ok ns1 =>
    match (match cw.cpuArchitecture with
           | none => Except.ok ns1
           | some arch => mapAssign ns1 "kubernetes.io/arch" arch) with
    | Except.error e => Except.error e
    | Except.ok ns2 =>
      match packContainers (KubePodSpec.mk ns2 [] []) cw.containers with
      | Except.error e => Except.error e
      | Except.ok ps => Except.ok (Deployment.mk Deployment.zero.replicas ps)

/-- Models `containerizedWorkloadPackager` (containerizedworkload.go). The Go
function type-asserts its object argument, builds the Deployment `d`, and
returns `nil` — the `app` parameter is never written, so the result pairs the
(unchanged) application with the returned Go error. A `GoPanic` result models
the runtime panics the construction of `d` can hit. -/
def containerizedWorkloadPackager (app : KubernetesApplication) (obj : WorkloadObject) :
    Except GoPanic (KubernetesApplication × Option String) :=
  match obj with
  | WorkloadObject.other => Except.ok (app, some errNotContainerizedWorkload)
  | WorkloadObject.containerized cw =>
    match containerizedWorkloadDeployment cw with
    | Except.error e => Except.error e
    | Except.ok _ => Except.ok (app, none)

/-- Models `genericPackager` (workload package): convert the object to an
unstructured template and append it to the application's resource-template
list. The fragment argument stands for the converted object. -/
def genericPackager (app : KubernetesApplication) (f : Fragment) : KubernetesApplication :=
  { app with resourceTemplates := app.resourceTemplates ++ [f] }

/-! ## Trait reconciler (`Reconciler.Reconcile`, trait package)

The store client and the modifier are the reconciler's only effects; a
`ReconcileEnv` fixes the outcome of each client call for one invocation, and
`Reconcile` is the resulting pure transcript of the Go control flow. -/

/-- The wait constants of the trait package, in seconds. -/
def shortWaitSeconds : Nat := 30

def longWaitSeconds : Nat := 60

/-- Reconcile error strings of the trait package. -/
def errGetTrait : String := "cannot get trait"

def errUpdateTraitStatus : String := "cannot update trait status"

def errTraitModify : String := "cannot apply trait modification"

def errGetPackage : String := "cannot get KubernetesApplication for workload reference in trait"

def errApplyTraitModification : String := "cannot apply trait modification to KubernetesApplication"

/-- `errors.Wrap(err, msg)`: nil stays nil, otherwise the message is
prefixed. -/
def wrapErr (e : Option String) (msg : String) : Option String :=
  match e with
  | none => none
  | some m => some (msg ++ ": " ++ m)

/-- Outcome of a `client.Get` call. -/
inductive GetResult (α : Type) where
  | ok (a : α)
  | notFound
  | err (msg : String)
  deriving DecidableEq, Repr

/-- The fields of a trait object that `Reconcile` reads:
`GetWorkloadRef().Name`, `GetNamespace()`, `GetOwnerReferences()`. -/
structure TraitObject where
  workloadRefName : String
  namespaceName : String
  ownerRefs : List String
  deriving DecidableEq, Repr

/-- A condition as set by `trait.SetConditions`: `v1alpha1.ReconcileSuccess()`
has reason `ReconcileSuccess` and an empty message,
`v1alpha1.ReconcileError(err)` has reason `ReconcileError` and the error's
message. -/
structure Condition where
  reason : String
  message : String
  deriving DecidableEq, Repr

def reconcileSuccess : Condition :=
  Condition.mk "ReconcileSuccess" ""

def reconcileError (msg : String) : Condition :=
  Condition.mk "ReconcileError" msg

/-- One invocation's environment: the outcome of fetching the trait, the
outcome of fetching the referenced `KubernetesApplication`, the configured
modifier, and the outcomes of `resource.Apply` and `Status().Update`
(`none` = success). -/
structure ReconcileEnv where
  getTrait : GetResult TraitObject
  getApp : GetResult KubernetesApplication
  modify : KubernetesApplication → TraitObject → Except String KubernetesApplication
  applyErr : Option String
  statusUpdateErr : Option String

/-- `reconcile.Result`: only `RequeueAfter` is ever set. -/
structure ReconcileResult where
  requeueAfterSeconds : Nat
  deriving DecidableEq, Repr

/-- Observable outcome of one `Reconcile` call: the returned result and
error, the last condition set on the trait, whether `Status().Update` was
called, and the application passed to `resource.Apply` (when reached). -/
structure ReconcileOut where
  result : ReconcileResult
  err : Option String
  condition : Option Condition
  statusWritten : Bool
  appliedApp : Option KubernetesApplication
  deriving DecidableEq, Repr

/-- A fresh `&workloadv1alpha1.KubernetesApplication{}` value. -/
def emptyApp : KubernetesApplication :=
  KubernetesApplication.mk "" "" [] []

/-- The ownership re-stamp before `resource.Apply`: owner references, name
and namespace are copied from the trait onto the application. -/
def stampApp (app : KubernetesApplication) (t : TraitObject) : KubernetesApplication :=
  { app with
    ownerRefs := t.ownerRefs
    name := t.workloadRefName
    namespaceName := t.namespaceName }

/-- The tail of `Reconcile` once the trait is in hand and the application
fetch did not fail with a non-not-found error: modify, stamp, apply, and set
the final condition; every branch ends in a status write whose wrapped error
is the call's returned error. -/
def reconcileWithApp (env : ReconcileEnv) (t : TraitObject) (app : KubernetesApplication) :
    ReconcileOut :=
  match env.modify app t with
  | Except.error m =>
    ReconcileOut.mk (ReconcileResult.mk shortWaitSeconds)
      (wrapErr env.statusUpdateErr errUpdateTraitStatus)
      (some (reconcileError (errTraitModify ++ ": " ++ m))) true none
  | Except.ok app' =>
    let stamped := stampApp app' t
    match env.applyErr with
    | some m =>
      ReconcileOut.mk (ReconcileResult.mk shortWaitSeconds)
        (wrapErr env.statusUpdateErr errUpdateTraitStatus)
        (some (reconcileError (errApplyTraitModification ++ ": " ++ m))) true none
    | none =>
      ReconcileOut.mk (ReconcileResult.mk longWaitSeconds)
        (wrapErr env.statusUpdateErr errUpdateTraitStatus)
        (some reconcileSuccess) true (some stamped)

/-- Models `Reconciler.Reconcile` of the trait package. Fetching the trait
returns `reconcile.Result{}` with `errors.Wrap(resource.IgnoreNotFound(err),
errGetTrait)` on any failure — not-found becomes a nil error, and neither
path sets a condition or writes status. Fetching the application takes the
error branch only when `resource.IgnoreNotFound(err) != nil`; a not-found
application is ignored and the zero-value application is used. -/
def Reconcile (env : ReconcileEnv) : ReconcileOut :=
  match env.getTrait with
  | GetResult.notFound =>
    ReconcileOut.mk (ReconcileResult.mk 0) none none false none
  | GetResult.err m =>
    ReconcileOut.mk (ReconcileResult.mk 0) (some (errGetTrait ++ ": " ++ m)) none false none
  | GetResult.ok t =>
    match env.getApp with
    | GetResult.err m =>
      ReconcileOut.mk (ReconcileResult.mk shortWaitSeconds)
        (wrapErr env.statusUpdateErr errUpdateTraitStatus)
        (some (reconcileError (errGetPackage ++ ": " ++ m))) true none
    | GetResult.ok app => reconcileWithApp env t app
    | GetResult.notFound => reconcileWithApp env t emptyApp

/-- Models `noopModifier` (modify.go): the reconciler's default modifier,
which returns nil without touching the application. -/
def noopModifier (app : KubernetesApplication) (_ : TraitObject) :
    Except String KubernetesApplication :=
  Except.ok app

/-- The application the reconciler works on: the fetched one, or the
zero-value application when the fetch reported not-found; `none` when the
fetch failed with any other error. -/
def fetchedApp (env : ReconcileEnv) : Option KubernetesApplication :=
  match env.getApp with
  | GetResult.ok a => some a
  | GetResult.notFound => some emptyApp
  | GetResult.err _ => none

/-! ## Helper lemmas -/

theorem wrapErr_eq_none_iff (e : Option String) (msg : String) :
    wrapErr e msg = none ↔ e = none := by
  cases e <;> simp [wrapErr]

theorem Reconcile_fetched (env : ReconcileEnv) (t : TraitObject) (a : KubernetesApplication)
    (ht : env.getTrait = GetResult.ok t) (ha : fetchedApp env = some a) :
    Reconcile env = reconcileWithApp env t a := by
  cases hg : env.getApp with
  | ok b =>
    have hb : b = a := by simpa [fetchedApp, hg] using ha
    simp [Reconcile, ht, hg, hb]
  | notFound =>
    have hb : emptyApp = a := by simpa [fetchedApp, hg] using ha
    simp [Reconcile, ht, hg, hb]
  | err m => simp [fetchedApp, hg] at ha

/-- The loop body on the success path: a `"Deployment"` fragment gets the
trait's replica count, every other fragment is returned as-is. -/
def scaledFragment (rc : Int) (f : Fragment) : Fragment :=
  if f.kind = "Deployment" then { f with replicas := some rc } else f

theorem scaleTemplates_no_deployment (rc : Int) : ∀ l : List Fragment,
    (∀ f ∈ l, f.kind ≠ "Deployment") → scaleTemplates rc l = Except.ok l
  | [], _ => rfl
  | f :: fs, h => by
    have hf : ¬ f.kind = "Deployment" := h f (List.mem_cons_self f fs)
    have ih := scaleTemplates_no_deployment rc fs (fun g hg => h g (List.mem_cons_of_mem f hg))
    simp [scaleTemplates, scaleTemplate, hf, ih]

theorem scaleTemplates_map (rc : Int) : ∀ l : List Fragment,
    (∀ f ∈ l, f.kind = "Deployment" → f.decodeOk = true) →
    scaleTemplates rc l = Except.ok (l.map (scaledFragment rc))
  | [], _ => rfl
  | f :: fs, h => by
    have ih := scaleTemplates_map rc fs (fun g hg => h g (List.mem_cons_of_mem f hg))
    by_cases hk : f.kind = "Deployment"
    · have hd : f.decodeOk = true := h f (List.mem_cons_self f fs) hk
      simp [scaleTemplates, scaleTemplate, hk, hd, ih, scaledFragment]
    · simp [scaleTemplates, scaleTemplate, hk, ih, scaledFragment]

theorem Reconcile_getApp_err (env : ReconcileEnv) (t : TraitObject) (m : String)
    (ht : env.getTrait = GetResult.ok t) (hg : env.getApp = GetResult.err m) :
    Reconcile env = ReconcileOut.mk (ReconcileResult.mk shortWaitSeconds)
      (wrapErr env.statusUpdateErr errUpdateTraitStatus)
      (some (reconcileError (errGetPackage ++ ": " ++ m))) true none := by
  simp [Reconcile, ht, hg]

theorem reconcileWithApp_modify_error (env : ReconcileEnv) (t : TraitObject)
    (a : KubernetesApplication) (m : String) (hm : env.modify a t = Except.error m) :
    reconcileWithApp env t a = ReconcileOut.mk (ReconcileResult.mk shortWaitSeconds)
      (wrapErr env.statusUpdateErr errUpdateTraitStatus)
      (some (reconcileError (errTraitModify ++ ": " ++ m))) true none := by
  simp [reconcileWithApp, hm]

theorem reconcileWithApp_apply_error (env : ReconcileEnv) (t : TraitObject)
    (a a' : KubernetesApplication) (m : String)
    (hm : env.modify a t = Except.ok a') (hap : env.applyErr = some m) :
    reconcileWithApp env t a = ReconcileOut.mk (ReconcileResult.mk shortWaitSeconds)
      (wrapErr env.statusUpdateErr errUpdateTraitStatus)
      (some (reconcileError (errApplyTraitModification ++ ": " ++ m))) true none := by
  simp [reconcileWithApp, hm, hap]

theorem reconcileWithApp_success (env : ReconcileEnv) (t : TraitObject)
    (a a' : KubernetesApplication)
    (hm : env.modify a t = Except.ok a') (hap : env.applyErr = none) :
    reconcileWithApp env t a = ReconcileOut.mk (ReconcileResult.mk longWaitSeconds)
      (wrapErr env.statusUpdateErr errUpdateTraitStatus)
      (some reconcileSuccess) true (some (stampApp a' t)) := by
  simp [reconcileWithApp, hm, hap]

/-! ## Claim theorems -/

/-- Example inputs shared by the reconciler claims. -/
def exampleTrait : TraitObject :=
  TraitObject.mk "kubeapp" "default" ["owner-1"]

def exampleContainer : OAMContainer :=
  OAMContainer.mk "web" "nginx" [] [] (OAMContainerResources.mk "" "" [])
    [OAMContainerPort.mk "http" 80 (some "TCP")] [] none none none

def exampleWorkload : ContainerizedWorkload :=
  ContainerizedWorkload.mk none none [exampleContainer]

/-- The container entry the example workload translates to. -/
def exampleWebContainer : KubeContainer :=
  KubeContainer.mk "web" "nginx" [] [] "" "" [KubeContainerPort.mk "http" 80 "TCP"] []
    none none []

def examplePriorApp : KubernetesApplication :=
  KubernetesApplication.mk "kubeapp" "default" [] [Fragment.mk "Service" none true "svc"]

/-- C1 (code bug): on the spec's example workload (one container `web`,
`nginx`, one TCP port 80) the packager succeeds yet leaves the application's
fragment sequence exactly as it was — empty stays empty, an existing
fragment list is not extended. The Deployment it builds internally does have
the matching container and port entry, but it is discarded, never appended
to the aggregate. -/
theorem packager_example_appends_nothing :
    containerizedWorkloadPackager (KubernetesApplication.mk "" "" [] [])
        (WorkloadObject.containerized exampleWorkload)
      = Except.ok (KubernetesApplication.mk "" "" [] [], none)
    ∧ containerizedWorkloadPackager examplePriorApp
        (WorkloadObject.containerized exampleWorkload)
      = Except.ok (examplePriorApp, none)
    ∧ containerizedWorkloadDeployment exampleWorkload
      = Except.ok (Deployment.mk none (KubePodSpec.mk none [] [exampleWebContainer])) :=
  ⟨rfl, rfl, rfl⟩

/-- C2 counterexample: with two `"Deployment"` fragments the modifier patches
the second one as well — its replica count changes from 1 to 5 — so later
fragments of the matched kind are not left untouched. -/
theorem modifier_patches_second_deployment :
    manualScalerModifier
        (KubernetesApplication.mk "" "" []
          [Fragment.mk "Deployment" none true "a", Fragment.mk "Deployment" (some 1) true "b"])
        (ManualScalerTrait.mk 5)
      = Except.ok (KubernetesApplication.mk "" "" []
          [Fragment.mk "Deployment" (some 5) true "a",
            Fragment.mk "Deployment" (some 5) true "b"])
    ∧ Fragment.mk "Deployment" (some 5) true "b" ≠ Fragment.mk "Deployment" (some 1) true "b" :=
  ⟨rfl, by decide⟩

/-- C2 (amended): the modifier patches **every** fragment whose kind is
`"Deployment"` (not only the first), replacing each at its own position with
its replica count overwritten; fragments of other kinds and the order and
length of the sequence are untouched. -/
theorem modifier_patches_every_deployment (app : KubernetesApplication)
    (ms : ManualScalerTrait)
    (h : ∀ f ∈ app.resourceTemplates, f.kind = "Deployment" → f.decodeOk = true) :
    manualScalerModifier app ms
      = Except.ok { app with
          resourceTemplates := app.resourceTemplates.map (scaledFragment ms.replicaCount) } := by
  simp [manualScalerModifier, scaleTemplates_map ms.replicaCount app.resourceTemplates h]

def exampleScaleApp : KubernetesApplication :=
  KubernetesApplication.mk "" "" []
    [Fragment.mk "Deployment" none true "x", Fragment.mk "Service" none false "y"]

/-- C2 witness: the amended theorem evaluated on a two-fragment aggregate. -/
theorem modifier_patches_every_deployment_witness :
    (∀ f ∈ exampleScaleApp.resourceTemplates, f.kind = "Deployment" → f.decodeOk = true)
    ∧ manualScalerModifier exampleScaleApp (ManualScalerTrait.mk 4)
      = Except.ok { exampleScaleApp with
          resourceTemplates := exampleScaleApp.resourceTemplates.map (scaledFragment 4) } :=
  ⟨by decide, modifier_patches_every_deployment exampleScaleApp (ManualScalerTrait.mk 4) (by decide)⟩

def envAppNotFound : ReconcileEnv :=
  ReconcileEnv.mk (GetResult.ok exampleTrait) GetResult.notFound noopModifier none none

/-- C3 counterexample: on the trait reconcile path, when the referenced
application is not found the reconcile nevertheless completes successfully —
nil error, Success condition, long wait — applying the stamped zero-value
application: the missing aggregate starts empty even though the trait is not
its originator, so not-found is ignored here. -/
theorem reconcile_app_notFound_succeeds :
    (Reconcile envAppNotFound).err = none
    ∧ (Reconcile envAppNotFound).condition = some reconcileSuccess
    ∧ (Reconcile envAppNotFound).result = ReconcileResult.mk longWaitSeconds
    ∧ (Reconcile envAppNotFound).appliedApp = some (stampApp emptyApp exampleTrait) :=
  ⟨rfl, rfl, rfl, rfl⟩

/-- C3 (amended): on the trait reconcile path a not-found result when
fetching the referenced application is ignored: the reconcile proceeds
exactly as if the zero-value (empty) application had been fetched, and the
subsequent apply creates it; only non-not-found fetch errors take the error
branch. -/
theorem reconcile_app_notFound_ignored (env : ReconcileEnv) (t : TraitObject)
    (ht : env.getTrait = GetResult.ok t) (ha : env.getApp = GetResult.notFound) :
    Reconcile env = reconcileWithApp env t emptyApp := by
  simp [Reconcile, ht, ha]

/-- C3 witness: the amended theorem evaluated on a concrete environment. -/
theorem reconcile_app_notFound_ignored_witness :
    envAppNotFound.getApp = GetResult.notFound
    ∧ Reconcile envAppNotFound = reconcileWithApp envAppNotFound exampleTrait emptyApp :=
  ⟨rfl, reconcile_app_notFound_ignored envAppNotFound exampleTrait rfl rfl⟩

def envTraitFetchError : ReconcileEnv :=
  ReconcileEnv.mk (GetResult.err "boom") GetResult.notFound noopModifier none none

/-- C4 counterexample: a non-not-found failure to fetch the trait returns the
wrapped error with an **empty** result — no condition is set, no status write
is attempted, and the requeue delay is not the short wait. (This matches the
repository's own `GetTraitError` test case.) -/
theorem reconcile_trait_fetch_error_no_status :
    Reconcile envTraitFetchError
      = ReconcileOut.mk (ReconcileResult.mk 0) (some "cannot get trait: boom") none false none
    ∧ ¬ ((Reconcile envTraitFetchError).statusWritten = true
        ∧ (Reconcile envTraitFetchError).result = ReconcileResult.mk shortWaitSeconds) :=
  ⟨by decide, by decide⟩

/-- C4 (amended): any non-not-found failure to fetch the primary descriptor
returns an empty requeue delay together with the wrapped error, without
setting a condition or writing status. -/
theorem reconcile_trait_fetch_error_returns_wrapped (env : ReconcileEnv) (m : String)
    (h : env.getTrait = GetResult.err m) :
    Reconcile env = ReconcileOut.mk (ReconcileResult.mk 0)
      (some (errGetTrait ++ ": " ++ m)) none false none := by
  simp [Reconcile, h]

/-- C4 witness: the amended theorem evaluated on a concrete environment. -/
theorem reconcile_trait_fetch_error_returns_wrapped_witness :
    envTraitFetchError.getTrait = GetResult.err "boom"
    ∧ Reconcile envTraitFetchError = ReconcileOut.mk (ReconcileResult.mk 0)
        (some (errGetTrait ++ ": " ++ "boom")) none false none :=
  ⟨rfl, reconcile_trait_fetch_error_returns_wrapped envTraitFetchError "boom" rfl⟩

/-- C5 (code bug): a present OS selector (and likewise a present
CPU-architecture selector) does not complete packaging: the selector is
assigned into the Deployment's `NodeSelector`, which is still the nil map of
`appsv1.Deployment{}`, a Go runtime panic. -/
theorem packager_os_selector_panics :
    containerizedWorkloadPackager (KubernetesApplication.mk "" "" [] [])
        (WorkloadObject.containerized (ContainerizedWorkload.mk (some "linux") none []))
      = Except.error GoPanic.nilMapAssignment
    ∧ containerizedWorkloadPackager (KubernetesApplication.mk "" "" [] [])
        (WorkloadObject.containerized (ContainerizedWorkload.mk none (some "amd64") []))
      = Except.error GoPanic.nilMapAssignment :=
  ⟨rfl, rfl⟩

def protocolFreeWorkload : ContainerizedWorkload :=
  ContainerizedWorkload.mk none none
    [OAMContainer.mk "web" "nginx" [] [] (OAMContainerResources.mk "" "" [])
      [OAMContainerPort.mk "http" 8080 none] [] none none none]

/-- C6 (code bug): a container port with no protocol value is not passed
through as absent: the packager dereferences the optional `Protocol` pointer
unconditionally (`corev1.Protocol(*p.Protocol)`), a nil-pointer panic. -/
theorem packager_absent_protocol_panics :
    containerizedWorkloadPackager (KubernetesApplication.mk "" "" [] [])
        (WorkloadObject.containerized protocolFreeWorkload)
      = Except.error GoPanic.nilPointerDeref :=
  rfl

/-- C7: when no fragment of the aggregate has kind `"Deployment"`, the
modifier returns the aggregate unchanged and reports no error. -/
theorem modifier_no_match_unchanged (app : KubernetesApplication) (ms : ManualScalerTrait)
    (h : ∀ f ∈ app.resourceTemplates, f.kind ≠ "Deployment") :
    manualScalerModifier app ms = Except.ok app := by
  simp [manualScalerModifier, scaleTemplates_no_deployment ms.replicaCount app.resourceTemplates h]

def exampleNoMatchApp : KubernetesApplication :=
  KubernetesApplication.mk "a" "ns" []
    [Fragment.mk "Service" none true "s", Fragment.mk "ConfigMap" none true "c"]

/-- C7 witness: the theorem evaluated on a two-fragment aggregate with no
Deployment fragment. -/
theorem modifier_no_match_unchanged_witness :
    (∀ f ∈ exampleNoMatchApp.resourceTemplates, f.kind ≠ "Deployment")
    ∧ manualScalerModifier exampleNoMatchApp (ManualScalerTrait.mk 7)
      = Except.ok exampleNoMatchApp :=
  ⟨by decide, modifier_no_match_unchanged exampleNoMatchApp (ManualScalerTrait.mk 7) (by decide)⟩

/-- C8: when the primary descriptor is not found, `Reconcile` returns an
empty requeue delay and a nil error, sets no condition and attempts no
status write. -/
theorem reconcile_trait_notFound_empty (env : ReconcileEnv)
    (h : env.getTrait = GetResult.notFound) :
    Reconcile env = ReconcileOut.mk (ReconcileResult.mk 0) none none false none := by
  simp [Reconcile, h]

def envTraitNotFound : ReconcileEnv :=
  ReconcileEnv.mk GetResult.notFound GetResult.notFound noopModifier none none

/-- C8 witness: the theorem evaluated on a concrete environment. -/
theorem reconcile_trait_notFound_empty_witness :
    envTraitNotFound.getTrait = GetResult.notFound
    ∧ Reconcile envTraitNotFound = ReconcileOut.mk (ReconcileResult.mk 0) none none false none :=
  ⟨rfl, reconcile_trait_notFound_empty envTraitNotFound rfl⟩

/-- C9: whenever the trait is fetched, the application is in hand (fetched or
fresh), modification succeeds and apply succeeds, `Reconcile` sets the
condition to reason `ReconcileSuccess` with an empty message, writes status,
and returns the long (60s) requeue delay. -/
theorem reconcile_success_long_wait (env : ReconcileEnv) (t : TraitObject)
    (a a' : KubernetesApplication)
    (ht : env.getTrait = GetResult.ok t)
    (ha : fetchedApp env = some a)
    (hm : env.modify a t = Except.ok a')
    (hap : env.applyErr = none) :
    (Reconcile env).condition = some (Condition.mk "ReconcileSuccess" "")
    ∧ (Reconcile env).statusWritten = true
    ∧ (Reconcile env).result = ReconcileResult.mk longWaitSeconds := by
  rw [Reconcile_fetched env t a ht ha, reconcileWithApp_success env t a a' hm hap]
  exact ⟨rfl, rfl, rfl⟩

def envSuccess : ReconcileEnv :=
  ReconcileEnv.mk (GetResult.ok exampleTrait) (GetResult.ok emptyApp) noopModifier none none

/-- C9 witness: the theorem evaluated on a concrete environment in which
every step succeeds. -/
theorem reconcile_success_long_wait_witness :
    fetchedApp envSuccess = some emptyApp
    ∧ envSuccess.modify emptyApp exampleTrait = Except.ok emptyApp
    ∧ envSuccess.applyErr = none
    ∧ ((Reconcile envSuccess).condition = some (Condition.mk "ReconcileSuccess" "")
      ∧ (Reconcile envSuccess).statusWritten = true
      ∧ (Reconcile envSuccess).result = ReconcileResult.mk longWaitSeconds) :=
  ⟨rfl, rfl, rfl,
    reconcile_success_long_wait envSuccess exampleTrait emptyApp emptyApp rfl rfl rfl rfl⟩

/-- A failure after the trait has been fetched: the application fetch failed
(non-not-found), or modification failed, or modification succeeded and apply
failed. -/
def postFetchFailure (env : ReconcileEnv) (t : TraitObject) : Prop :=
  (∃ m, env.getApp = GetResult.err m) ∨
  (∃ a, fetchedApp env = some a ∧
    ((∃ m, env.modify a t = Except.error m) ∨
      (∃ a', env.modify a t = Except.ok a' ∧ env.applyErr ≠ none)))

/-- C10: every failure after the primary descriptor has been fetched is
surfaced through an Error condition, a status write and the short (30s)
requeue delay, and the returned error is nil exactly when the status write
succeeds. -/
theorem reconcile_failure_error_only_from_status_write (env : ReconcileEnv) (t : TraitObject)
    (ht : env.getTrait = GetResult.ok t) (hf : postFetchFailure env t) :
    (Reconcile env).result = ReconcileResult.mk shortWaitSeconds
    ∧ (Reconcile env).statusWritten = true
    ∧ (∃ c, (Reconcile env).condition = some c ∧ c.reason = "ReconcileError")
    ∧ ((Reconcile env).err = none ↔ env.statusUpdateErr = none) := by
  rcases hf with ⟨m, hg⟩ | ⟨a, ha, hrest⟩
  · rw [Reconcile_getApp_err env t m ht hg]
    exact ⟨rfl, rfl, ⟨_, rfl, rfl⟩, wrapErr_eq_none_iff _ _⟩
  · rw [Reconcile_fetched env t a ht ha]
    rcases hrest with ⟨m, hm⟩ | ⟨a', hm, hap⟩
    · rw [reconcileWithApp_modify_error env t a m hm]
      exact ⟨rfl, rfl, ⟨_, rfl, rfl⟩, wrapErr_eq_none_iff _ _⟩
    · cases hApply : env.applyErr with
      | none => exact absurd hApply hap
      | some m2 =>
        rw [reconcileWithApp_apply_error env t a a' m2 hm hApply]
        exact ⟨rfl, rfl, ⟨_, rfl, rfl⟩, wrapErr_eq_none_iff _ _⟩

def envGetAppError : ReconcileEnv :=
  ReconcileEnv.mk (GetResult.ok exampleTrait) (GetResult.err "boom") noopModifier none none

/-- C10 witness: the theorem evaluated on a concrete environment in which the
application fetch fails and the status write succeeds. -/
theorem reconcile_failure_error_only_from_status_write_witness :
    postFetchFailure envGetAppError exampleTrait
    ∧ ((Reconcile envGetAppError).err = none ↔ envGetAppError.statusUpdateErr = none) :=
  ⟨Or.inl ⟨"boom", rfl⟩,
    (reconcile_failure_error_only_from_status_write envGetAppError exampleTrait rfl
      (Or.inl ⟨"boom", rfl⟩)).2.2.2⟩

end StackKubernetesRemote
